import Mathlib

/-!
Verification development for the Gazorpazorp security gateway
(a reverse proxy that evaluates requests from autonomous agents through
cryptographic, semantic and policy filters backed by a Redis-like KV store).

Each section shallowly embeds one component of the TypeScript source:
JS numbers are modelled as `ℚ`, timestamps as `ℤ` (milliseconds since
epoch), and the KV store as an association list with Redis overwrite
(newest binding shadows older ones) and per-key expiry times where the
source relies on TTLs.  External primitives that the source calls but does
not implement (SHA-256, Ed25519 verification, the LLM endpoint, the regex
engine) are taken as function parameters of the embedded operations, so
every theorem is quantified over their behaviour unless a claim pins a
concrete instance.
-/

namespace Gazorpazorp

/-! ## JSON values and `JSON.stringify`

The source stringifies request bodies and composite cache keys with
`JSON.stringify`.  We model JSON values with integer numerics (the bodies
and composites relevant here carry strings; JS float formatting is not
exercised) and object keys in insertion order, which is what
`JSON.stringify` produces for object literals. -/

inductive Json where
  | null : Json
  | bool (b : Bool) : Json
  | num (n : ℤ) : Json
  | str (s : String) : Json
  | arr (elems : List Json) : Json
  | obj (fields : List (String × Json)) : Json
  deriving Repr

/-- `JSON.stringify` escaping for one character inside a string literal. -/
def jsonEscapeChar (c : Char) : String :=
  if c = '"' then "\\\""
  else if c = '\\' then "\\\\"
  else if c = '\n' then "\\n"
  else if c = '\r' then "\\r"
  else if c = '\t' then "\\t"
  else String.singleton c

def jsonEscape (s : String) : String :=
  String.join (s.data.map jsonEscapeChar)

mutual

/-- `JSON.stringify`: object keys are emitted in insertion order. -/
def Json.stringify : Json → String
  | .null => "null"
  | .bool true => "true"
  | .bool false => "false"
  | .num n => toString n
  | .str s => "\"" ++ jsonEscape s ++ "\""
  | .arr elems => "[" ++ Json.stringifyArr elems ++ "]"
  | .obj fields => "\x7b" ++ Json.stringifyObj fields ++ "\x7d"

def Json.stringifyArr : List Json → String
  | [] => ""
  | [v] => Json.stringify v
  | v :: rest => Json.stringify v ++ "," ++ Json.stringifyArr rest

def Json.stringifyObj : List (String × Json) → String
  | [] => ""
  | [(k, v)] => "\"" ++ jsonEscape k ++ "\":" ++ Json.stringify v
  | (k, v) :: rest =>
      "\"" ++ jsonEscape k ++ "\":" ++ Json.stringify v ++ "," ++ Json.stringifyObj rest

end

/-! ## Association-list model of the Redis KV store

`kvSet` is Redis `SET` (overwrite): the new binding is consed in front and
shadows any older binding, `kvGet` reads the newest binding. -/

def kvGet {α : Type} (store : List (String × α)) (key : String) : Option α :=
  match store with
  | [] => none
  | (k, v) :: rest => if k = key then some v else kvGet rest key

def kvSet {α : Type} (store : List (String × α)) (key : String) (v : α) :
    List (String × α) :=
  (key, v) :: store

theorem kvGet_kvSet_same {α : Type} (store : List (String × α)) (key : String) (v : α) :
    kvGet (kvSet store key v) key = some v := by
  simp [kvGet, kvSet]

theorem kvGet_kvSet_other {α : Type} (store : List (String × α)) (k k' : String) (v : α)
    (h : k ≠ k') : kvGet (kvSet store k v) k' = kvGet store k' := by
  simp [kvGet, kvSet, h]

/-! ## KeyStore: reputation updates (src/crypto/key-store.ts)

Both reputation-update paths of the source (the Lua script
`UPDATE_REPUTATION_SCRIPT` in the extended KeyStore and
`KeyStore.updateReputation` in src/crypto/key-store.ts) write
`max(0, min(100, old + delta))`. -/

/-- `newRep = math.max(0, math.min(100, oldRep + delta))` — the clamp used by
every reputation write in the source. -/
def clampReputation (old delta : ℚ) : ℚ :=
  max 0 (min 100 (old + delta))

/-- The stored reputation after a sequence of `updateReputation` calls with
the given deltas, starting from `start`. -/
def applyReputationDeltas (start : ℚ) (deltas : List ℚ) : ℚ :=
  deltas.foldl clampReputation start

theorem clampReputation_nonneg (old delta : ℚ) : 0 ≤ clampReputation old delta :=
  le_max_left 0 _

theorem clampReputation_le_hundred (old delta : ℚ) : clampReputation old delta ≤ 100 :=
  max_le (by norm_num) (min_le_left 100 _)

theorem applyReputationDeltas_nonneg (deltas : List ℚ) (start : ℚ) (h : 0 ≤ start) :
    0 ≤ applyReputationDeltas start deltas := by
  induction deltas generalizing start with
  | nil => simpa [applyReputationDeltas]
  | cons d rest ih =>
      simpa [applyReputationDeltas] using
        ih (clampReputation start d) (clampReputation_nonneg start d)

theorem applyReputationDeltas_le_hundred (deltas : List ℚ) (start : ℚ) (h : start ≤ 100) :
    applyReputationDeltas start deltas ≤ 100 := by
  induction deltas generalizing start with
  | nil => simpa [applyReputationDeltas]
  | cons d rest ih =>
      simpa [applyReputationDeltas] using
        ih (clampReputation start d) (clampReputation_le_hundred start d)

theorem applyReputationDeltas_replicate_upper (k : ℕ) (start : ℚ)
    (h0 : 0 ≤ start) (h1 : start ≤ 100) :
    applyReputationDeltas start (List.replicate k (1/10)) ≤
      min 100 (start + (1/10) * k) := by
  induction k generalizing start with
  | zero =>
      simp only [List.replicate, applyReputationDeltas, List.foldl, Nat.cast_zero]
      exact le_min h1 (by norm_num)
  | succ n ih =>
      have hstep : clampReputation start (1/10) ≤ start + 1/10 := by
        unfold clampReputation
        have : min 100 (start + 1/10) ≤ start + 1/10 := min_le_right _ _
        have hnn : (0 : ℚ) ≤ start + 1/10 := by linarith
        exact max_le hnn this
      have := ih (clampReputation start (1/10)) (clampReputation_nonneg _ _)
        (clampReputation_le_hundred _ _)
      calc applyReputationDeltas start (List.replicate (n + 1) (1/10))
          = applyReputationDeltas (clampReputation start (1/10)) (List.replicate n (1/10)) := by
            simp [applyReputationDeltas, List.replicate]
        _ ≤ min 100 (clampReputation start (1/10) + (1/10) * n) := this
        _ ≤ min 100 (start + (1/10) * (n + 1 : ℕ)) := by
            apply min_le_min le_rfl
            push_cast
            linarith

theorem applyReputationDeltas_replicate_lower (k : ℕ) (start : ℚ)
    (h0 : 0 ≤ start) (h1 : start ≤ 100) :
    max 0 (start - 5 * k) ≤ applyReputationDeltas start (List.replicate k (-5)) := by
  induction k generalizing start with
  | zero =>
      simp only [List.replicate, applyReputationDeltas, List.foldl, Nat.cast_zero]
      have : start - 5 * (0 : ℚ) = start := by ring
      rw [this, max_eq_right h0]
  | succ n ih =>
      have hclamp : start - 5 ≤ clampReputation start (-5) := by
        unfold clampReputation
        have hmin : min 100 (start + -5) = start + -5 := min_eq_right (by linarith)
        rw [hmin]
        have : start + -5 ≤ max 0 (start + -5) := le_max_right _ _
        linarith [this]
      have hrec := ih (clampReputation start (-5)) (clampReputation_nonneg _ _)
        (clampReputation_le_hundred _ _)
      calc max 0 (start - 5 * (n + 1 : ℕ))
          ≤ max 0 (clampReputation start (-5) - 5 * n) := by
            apply max_le_max le_rfl
            push_cast
            linarith
        _ ≤ applyReputationDeltas (clampReputation start (-5)) (List.replicate n (-5)) := hrec
        _ = applyReputationDeltas start (List.replicate (n + 1) (-5)) := by
            simp [applyReputationDeltas, List.replicate]

/-! ## CryptoVerifier (src/crypto/agent-identity.ts)

`verifyRequest` checks timestamp freshness, consumes the nonce with an
atomic `SET NX EX 60`, looks the agent up by fingerprint and finally
verifies the Ed25519 signature.  SHA-256 (for fingerprints) and the node
`verify` primitive are function parameters; `SigCheck.threw` models the
`catch` branch around `createPublicKey`/`verify`. -/

structure AgentPermissions where
  allowedEndpoints : List String
  deniedEndpoints : List String
  maxRequestsPerMinute : ℚ
  maxPayloadSize : ℚ
  allowedMethods : List String
  sensitiveDataAccess : Bool
  deriving Repr, DecidableEq

structure AgentIdentity where
  id : String
  publicKey : String
  fingerprint : String
  registeredAt : ℤ
  lastSeen : ℤ
  reputation : ℚ
  permissions : AgentPermissions
  deriving Repr, DecidableEq

structure SignedRequest where
  method : String
  path : String
  body : Json
  timestamp : ℤ
  nonce : String

/-- `JSON.stringify(signedPayload)` — the exact byte sequence the signature
is verified over (keys in declaration order). -/
def SignedRequest.stringify (p : SignedRequest) : String :=
  Json.stringify (.obj [("method", .str p.method), ("path", .str p.path),
    ("body", p.body), ("timestamp", .num p.timestamp), ("nonce", .str p.nonce)])

/-- Outcome of the node `crypto.verify` call inside the `try` block:
`ok`/`invalid` are its boolean result, `threw` models an exception from
`createPublicKey` or `verify` (caught by the surrounding `catch`). -/
inductive SigCheck where
  | ok : SigCheck
  | invalid : SigCheck
  | threw : SigCheck
  deriving Repr, DecidableEq

/-- The KV state touched by the crypto layer: `nonce:*` keys with their
expiry instants (ms), the `agent:identity:*` keyspace, and the
`profile:*` keyspace (which the crypto layer never reads or writes). -/
structure CryptoState where
  nonces : List (String × ℤ)
  agents : List (String × AgentIdentity)
  profiles : List (String × Json)

/-- A Redis key with TTL is present at instant `now` iff `now` is before
its expiry. -/
def noncePresent (nonces : List (String × ℤ)) (key : String) (now : ℤ) : Bool :=
  nonces.any (fun e => e.1 = key && now < e.2)

/-- `KeyStore.updateReputation` of src/crypto/key-store.ts: re-reads the
identity and writes it back with the clamped reputation (no other field
changes). A missing identity throws in the source; the store is then
untouched. -/
def updateReputationStore (agents : List (String × AgentIdentity))
    (fingerprint : String) (delta : ℚ) : List (String × AgentIdentity) :=
  match kvGet agents fingerprint with
  | none => agents
  | some identity =>
      kvSet agents fingerprint
        { identity with reputation := clampReputation identity.reputation delta }

structure VerifyOutcome where
  valid : Bool
  agent : Option AgentIdentity
  error : Option String
  deriving Repr, DecidableEq

def VerifyOutcome.fail (msg : String) : VerifyOutcome :=
  { valid := false, agent := none, error := some msg }

/-- `CryptoVerifier.verifyRequest`.  `hashFn` is SHA-256 hex
(`getFingerprint`), `sigCheck payloadJson pubKeyPem sigHex` the node
Ed25519 verification. Timestamp tolerance 30 000 ms, nonce TTL 60 s. -/
def verifyRequest (hashFn : String → String)
    (sigCheck : String → String → String → SigCheck)
    (st : CryptoState) (now : ℤ) (signedPayload : SignedRequest)
    (signatureHex publicKeyPem : String) : VerifyOutcome × CryptoState :=
  -- 1. Check timestamp freshness
  if 30000 < |now - signedPayload.timestamp| then
    (.fail "Request expired or clock skew detected", st)
  else
    -- 2. Check nonce hasn't been used (SET NX EX 60)
    let fingerprint := hashFn publicKeyPem
    let nonceKey := "nonce:" ++ fingerprint ++ ":" ++ signedPayload.nonce
    if noncePresent st.nonces nonceKey now then
      (.fail "Nonce already used - potential replay attack", st)
    else
      let st1 := { st with nonces := (nonceKey, now + 60000) :: st.nonces }
      -- 3. Lookup agent by fingerprint
      match kvGet st1.agents fingerprint with
      | none => (.fail "Unknown agent - not registered", st1)
      | some agent =>
          -- 4. Verify cryptographic signature
          match sigCheck signedPayload.stringify publicKeyPem signatureHex with
          | .threw => (.fail "Signature verification failed", st1)
          | .invalid =>
              (.fail "Invalid signature",
               { st1 with agents := updateReputationStore st1.agents fingerprint (-5) })
          | .ok =>
              -- 5. Update agent metadata (lastSeen on the returned snapshot,
              -- reputation +0.1 in the store)
              ({ valid := true, agent := some { agent with lastSeen := now }, error := none },
               { st1 with agents := updateReputationStore st1.agents fingerprint (1/10) })

/-! ## IntentAnalyzer (src/semantic/intent-analyzer.ts)

The regex catalog (`preScreen`) and the LLM endpoint are external to the
analyzer's control flow: `preScreenFn content` stands for the list of
matched threat types (in catalog order) and `llm` for the outcome of the
single LLM interaction (`none` = the fetch/JSON parse threw). -/

structure ApiRequest where
  method : String
  path : String
  body : Json

inductive SuggestedAction where
  | allow | block | challenge | rate_limit
  deriving Repr, DecidableEq

structure AnalysisResult where
  isMalicious : Bool
  confidence : ℚ
  threatType : Option String
  explanation : String
  suggestedAction : SuggestedAction
  riskScore : ℚ
  deriving Repr, DecidableEq

/-- The raw JSON the LLM returned (already parsed). -/
structure LlmResponse where
  isMalicious : Bool
  confidence : ℚ
  threatType : Option String
  explanation : String
  riskScore : ℚ
  deriving Repr, DecidableEq

/-- The Zod `LlmResponseSchema` bounds: `confidence` in [0,1] and
`riskScore` in [0,100] (`min`/`max` are inclusive). -/
def llmSchemaValid (r : LlmResponse) : Bool :=
  decide (0 ≤ r.confidence) && decide (r.confidence ≤ 1) &&
  decide (0 ≤ r.riskScore) && decide (r.riskScore ≤ 100)

/-- `(analysis.threatType as ThreatType) || "none"`: JS `||` falls through
to `"none"` on `undefined` or the empty string. -/
def threatTypeOrNone (t : Option String) : String :=
  match t with
  | some s => if s = "" then "none" else s
  | none => "none"

/-- `IntentAnalyzer.determineAction`. -/
def determineAction (riskScore reputation : ℚ) : SuggestedAction :=
  let adjustedRisk := riskScore - (reputation - 50) * (3/10)
  if 80 ≤ adjustedRisk then .block
  else if 60 ≤ adjustedRisk then .challenge
  else if 40 ≤ adjustedRisk then .rate_limit
  else .allow

/-- The `catch` block of `analyzeIntent`: the fail-safe ladder engaged when
the LLM call throws or its response fails schema validation. -/
def analyzeFailSafe (matchedThreats : List String) (reputation : ℚ) : AnalysisResult :=
  if !matchedThreats.isEmpty then
    { isMalicious := true, confidence := 8/10, threatType := matchedThreats.head?,
      explanation := "LLM analysis unavailable. Blocked due to suspicious RegEx patterns.",
      suggestedAction := .block, riskScore := 90 }
  else if reputation < 60 then
    { isMalicious := true, confidence := 1/2, threatType := none,
      explanation := "LLM analysis unavailable. Blocked untrusted agent (Reputation < 60) during service outage.",
      suggestedAction := .block, riskScore := 80 }
  else if reputation < 85 then
    { isMalicious := false, confidence := 2/5, threatType := none,
      explanation := "LLM analysis unavailable. Issuing challenge to moderately trusted agent.",
      suggestedAction := .challenge, riskScore := 50 }
  else
    { isMalicious := false, confidence := 3/10, threatType := none,
      explanation := "LLM analysis unavailable. Allowing trusted agent (Fail-Open for high reputation).",
      suggestedAction := .allow, riskScore := 20 }

/-- `IntentAnalyzer.analyzeIntent`.  The second component records whether
an LLM call was issued (`false` exactly on the Tier A skip path). -/
def analyzeIntent (preScreenFn : String → List String) (llm : Option LlmResponse)
    (request : ApiRequest) (reputation : ℚ) : AnalysisResult × Bool :=
  let content := Json.stringify request.body
  -- Step 1: Fast pre-screening
  let matchedThreats := preScreenFn content
  -- Step 2: Tier A skip (high trust, no patterns)
  if matchedThreats.isEmpty && decide (95 < reputation) then
    ({ isMalicious := false, confidence := 95/100, threatType := none,
       explanation := "Tier A: Trusted agent, no suspicious patterns detected (Analysis skipped)",
       suggestedAction := .allow, riskScore := 5 }, false)
  else
    -- Step 3: model choice, Step 4: LLM analysis
    let needsDeepAnalysis :=
      !matchedThreats.isEmpty || decide (reputation < 40) || decide (1000 < content.length)
    let tier := if needsDeepAnalysis then "Deep" else "Fast"
    match llm with
    | some r =>
        if llmSchemaValid r then
          ({ isMalicious := r.isMalicious, confidence := r.confidence,
             threatType := some (threatTypeOrNone r.threatType),
             explanation := "Tier " ++ tier ++ ": " ++ r.explanation,
             suggestedAction := determineAction r.riskScore reputation,
             riskScore := r.riskScore }, true)
        else (analyzeFailSafe matchedThreats reputation, true)
    | none => (analyzeFailSafe matchedThreats reputation, true)

/-! ## AnalysisCache, reputation-bucket keyed (src/cache/analysis-cache.ts,
extended variant)

Cache key = `SHA256(JSON.stringify({method, normalizedPath, bodyHash,
reputationBucket}))` under the `analysis:` prefix.  Path normalization
replaces UUIDs first, then `/<digits>` segments. -/

def getReputationBucket (reputation : ℚ) : String :=
  if 90 ≤ reputation then "trusted"
  else if 70 ≤ reputation then "high"
  else if 50 ≤ reputation then "medium"
  else if 30 ≤ reputation then "low"
  else "untrusted"

/-- `[0-9a-f]` with the `i` flag. -/
def isHexChar (c : Char) : Bool :=
  c.isDigit || ('a' ≤ c && c ≤ 'f') || ('A' ≤ c && c ≤ 'F')

/-- Does the list start with the 36-character shape
`hex{8}-hex{4}-hex{4}-hex{4}-hex{12}`? -/
def isUUIDPrefix (cs : List Char) : Bool :=
  let pre := cs.take 36
  pre.length = 36 && (List.range 36).all (fun i =>
    if i = 8 || i = 13 || i = 18 || i = 23 then pre.getD i ' ' = '-'
    else isHexChar (pre.getD i ' '))

/-- Global leftmost replacement of UUIDs by `:uuid`
(`/[0-9a-f]{8}-....{12}/gi`). -/
def replaceUUIDs : List Char → List Char
  | [] => []
  | c :: cs =>
      if isUUIDPrefix (c :: cs) then
        ":uuid".data ++ replaceUUIDs ((c :: cs).drop 36)
      else c :: replaceUUIDs cs
  termination_by cs => cs.length
  decreasing_by
    · simp only [List.drop_succ_cons, List.length_drop, List.length_cons]
      omega
    · simp [List.length_cons]

/-- Global replacement of `/<digits>` segments by `/:id` when followed by
`/` or the end of the string (`/\/\d+(?=\/|$)/g`; the lookahead is not
consumed). -/
def replaceNumericIds : List Char → List Char
  | [] => []
  | c :: cs =>
      if c = '/' then
        let digits := cs.takeWhile Char.isDigit
        let rest := cs.dropWhile Char.isDigit
        if !digits.isEmpty && (rest.isEmpty || rest.head? = some '/') then
          "/:id".data ++ replaceNumericIds rest
        else c :: replaceNumericIds cs
      else c :: replaceNumericIds cs
  termination_by cs => cs.length
  decreasing_by
    · have h := (List.dropWhile_sublist (l := cs) Char.isDigit).length_le
      simp only [List.length_cons]
      omega
    · simp [List.length_cons]
    · simp [List.length_cons]

/-- Path normalization: UUIDs first, then numeric ids. -/
def normalizePath (path : String) : String :=
  String.mk (replaceNumericIds (replaceUUIDs path.data))

/-- `AnalysisCache.generateKey` (`hashFn` = SHA-256 hex, `keyPrefix` =
`"analysis:"`). -/
def generateKey (hashFn : String → String) (request : ApiRequest)
    (reputationBucket : String) : String :=
  let normalizedPath := normalizePath request.path
  let bodyHash := hashFn (Json.stringify request.body)
  let composite := Json.stringify (.obj
    [("method", .str request.method), ("path", .str normalizedPath),
     ("bodyHash", .str bodyHash), ("reputationBucket", .str reputationBucket)])
  "analysis:" ++ hashFn composite

/-- `AnalysisCache.get` (stats counters omitted; they do not affect the
returned value). -/
def cacheGet (hashFn : String → String) (store : List (String × AnalysisResult))
    (request : ApiRequest) (reputation : ℚ) : Option AnalysisResult :=
  kvGet store (generateKey hashFn request (getReputationBucket reputation))

/-- `AnalysisCache.set`. -/
def cacheSet (hashFn : String → String) (store : List (String × AnalysisResult))
    (request : ApiRequest) (result : AnalysisResult) (reputation : ℚ) :
    List (String × AnalysisResult) :=
  kvSet store (generateKey hashFn request (getReputationBucket reputation)) result

/-! ## AnomalyDetector score aggregation and the pipeline fold
(src/behavioral/anomaly-detector.ts, src/index.ts)

`aggregateAnomaly` is the tail of `detectAnomaly`: the fired signals (with
their reasons and per-signal scores) are summed, capped at 1, and the
request counts as anomalous above 0.5.  `foldAnomaly` is the risk-score
update performed by `semanticMiddleware` in both the enhanced and the
production gateway. -/

structure AnomalyOutcome where
  isAnomalous : Bool
  score : ℚ
  reasons : List String
  deriving Repr

/-- Aggregation step of `detectAnomaly`: `totalScore = Σ signal scores`,
`normalizedScore = min(totalScore, 1.0)`, `isAnomalous = score > 0.5`. -/
def aggregateAnomaly (anomalies : List (String × ℚ)) : AnomalyOutcome :=
  let totalScore := (anomalies.map Prod.snd).sum
  let normalizedScore := min totalScore 1
  { isAnomalous := decide ((1/2 : ℚ) < normalizedScore),
    score := normalizedScore,
    reasons := anomalies.map Prod.fst }

/-- The `semanticMiddleware` fold: only `if (anomaly.isAnomalous)` does the
gateway set `riskScore = Math.min(riskScore + anomaly.score * 20, 100)`. -/
def foldAnomaly (riskScore : ℚ) (anomaly : AnomalyOutcome) : ℚ :=
  if anomaly.isAnomalous then min (riskScore + anomaly.score * 20) 100
  else riskScore

/-! ## ChallengeService (src/challenge/challenge-service.ts)

Challenges live under `challenge:<id>` with TTL 300 s; completed
challenges are rewritten with TTL 60 s.  Expiry instants are in ms. -/

inductive ChallengeType where
  | proof_of_work | signature_refresh | rate_delay
  deriving Repr, DecidableEq

structure Challenge where
  id : String
  agentId : String
  type : ChallengeType
  createdAt : ℤ
  expiresAt : ℤ
  difficulty : Option ℤ
  nonce : Option String
  completed : Bool
  deriving Repr, DecidableEq

structure ChallengeResult where
  valid : Bool
  error : Option String
  deriving Repr, DecidableEq

/-- Challenge keyspace plus the `challenges:count:<agentId>` counters. -/
structure ChallengeState where
  challenges : List (String × (Challenge × ℤ))
  counts : List (String × ℤ)

def incrCount (counts : List (String × ℤ)) (key : String) : List (String × ℤ) :=
  kvSet counts key ((kvGet counts key).getD 0 + 1)

def decrCount (counts : List (String × ℤ)) (key : String) : List (String × ℤ) :=
  kvSet counts key ((kvGet counts key).getD 0 - 1)

/-- `ChallengeService.selectChallengeType`. -/
def selectChallengeType (riskScore : ℚ) : ChallengeType :=
  if 80 ≤ riskScore then .proof_of_work
  else if 60 ≤ riskScore then .signature_refresh
  else .rate_delay

/-- `ChallengeService.calculateDifficulty`:
`Math.min(5, Math.max(2, Math.floor(riskScore / 20)))`. -/
def calculateDifficulty (riskScore : ℚ) : ℤ :=
  min 5 (max 2 ⌊riskScore / 20⌋)

/-- `ChallengeService.issueChallenge`; `challengeId` and `nonceHex` stand
for the `randomBytes(16).toString("hex")` draws. -/
def issueChallenge (challengeId nonceHex agentId : String) (riskScore : ℚ)
    (now : ℤ) (st : ChallengeState) : Challenge × ChallengeState :=
  let ctype := selectChallengeType riskScore
  let difficulty := calculateDifficulty riskScore
  let challenge : Challenge :=
    { id := challengeId, agentId := agentId, type := ctype,
      createdAt := now, expiresAt := now + 300 * 1000,
      difficulty := if ctype = .proof_of_work then some difficulty else none,
      nonce := if ctype = .signature_refresh then some nonceHex else none,
      completed := false }
  (challenge,
   { st with
     challenges := kvSet st.challenges ("challenge:" ++ challengeId)
       (challenge, now + 300 * 1000),
     counts := incrCount st.counts ("challenges:count:" ++ agentId) })

/-- Read `challenge:<id>` honouring the TTL: present iff `now` is before
the stored expiry instant. -/
def getChallenge (st : ChallengeState) (now : ℤ) (challengeId : String) :
    Option Challenge :=
  match kvGet st.challenges ("challenge:" ++ challengeId) with
  | none => none
  | some (c, expiry) => if now < expiry then some c else none

/-- Substring containment (`String.prototype.includes`). -/
def strContains (s sub : String) : Bool :=
  s.data.tails.any (fun t => sub.data.isPrefixOf t)

/-- `ChallengeService.verifyProofOfWork`: hash the id–solution
concatenation, then require `Math.ceil(difficulty / 4)` leading `'0'` hex
characters.  `(difficulty + 3) / 4` is `Math.ceil(difficulty / 4)` for the
non-negative difficulties the service produces.  The source loop reads
`prefix[i]` for every `i < requiredZeroChars` and an out-of-range read
yields `undefined ≠ "0"`, hence the length guard. -/
def verifyProofOfWork (hashFn : String → String) (challengeId solution : String)
    (difficulty : ℤ) : Bool :=
  let hash := hashFn (challengeId ++ solution)
  let requiredZeroChars := ((difficulty + 3) / 4).toNat
  let pfx := hash.data.take requiredZeroChars
  decide (pfx.length = requiredZeroChars) && pfx.all (fun c => c == '0')

/-- `ChallengeService.verifySignatureRefresh`: containment only. -/
def verifySignatureRefresh (solution expectedNonce : String) : Bool :=
  strContains solution expectedNonce

/-- `ChallengeService.verifyChallenge`.  The `difficulty!`/`nonce!`
non-null assertions are modelled with defaults (`0` makes the required
zero-character count 0, matching the vacuous JS loop on an undefined
difficulty; both defaults are unreachable for challenges created by
`issueChallenge`). -/
def verifyChallenge (hashFn : String → String) (st : ChallengeState) (now : ℤ)
    (challengeId solution : String) : ChallengeResult × ChallengeState :=
  match getChallenge st now challengeId with
  | none => ({ valid := false, error := some "Challenge not found or expired" }, st)
  | some challenge =>
      if challenge.completed then
        ({ valid := false, error := some "Challenge already completed" }, st)
      else if challenge.expiresAt < now then
        ({ valid := false, error := some "Challenge expired" },
         { st with challenges :=
             st.challenges.filter (fun e => e.1 ≠ "challenge:" ++ challengeId) })
      else
        let valid :=
          match challenge.type with
          | .proof_of_work =>
              verifyProofOfWork hashFn challengeId solution (challenge.difficulty.getD 0)
          | .signature_refresh =>
              verifySignatureRefresh solution (challenge.nonce.getD "")
          | .rate_delay => solution == challengeId
        if valid then
          ({ valid := true, error := none },
           { st with
             challenges := kvSet st.challenges ("challenge:" ++ challengeId)
               ({ challenge with completed := true }, now + 60 * 1000),
             counts := decrCount st.counts ("challenges:count:" ++ challenge.agentId) })
        else ({ valid := false, error := some "Invalid solution" }, st)

/-- `ChallengeService.isChallengeCompleted`. -/
def isChallengeCompleted (st : ChallengeState) (now : ℤ) (challengeId : String) : Bool :=
  match getChallenge st now challengeId with
  | none => false
  | some challenge => challenge.completed

/-! ## PolicyEngine (src/policy/engine.ts, src/policy/rules/defaults.ts)

Conditions address the `EvaluationContext` through dotted field paths, so
the context is reflected as a JS object tree (`JsValue`) and
`getNestedValue` walks it with `path.split(".")`.  The regex engine behind
the `matches` operator is a function parameter `regexTest pattern s`. -/

inductive JsValue where
  | undef : JsValue
  | num (q : ℚ) : JsValue
  | str (s : String) : JsValue
  | boolean (b : Bool) : JsValue
  | arrv (elems : List JsValue) : JsValue
  | objv (fields : List (String × JsValue)) : JsValue
  deriving Repr

/-- JS strict equality `===` on the values reachable here.  Objects and
arrays compare by reference; a rule literal is never the same reference as
a context value, so those comparisons are `false`. -/
def jsStrictEq : JsValue → JsValue → Bool
  | .undef, .undef => true
  | .num a, .num b => a == b
  | .str a, .str b => a == b
  | .boolean a, .boolean b => a == b
  | _, _ => false

/-- `Number(value)` (`none` = NaN).  Strings: after trimming, the empty
string is 0 and an optionally signed digit string is its value; the other
numeric string forms of JS (decimal points, exponents, hex) are not
exercised by any shipped rule and map to NaN here.  Objects and arrays map
to NaN (`ToPrimitive` on arrays is likewise unexercised). -/
def jsToNumber : JsValue → Option ℚ
  | .num q => some q
  | .boolean b => some (if b then 1 else 0)
  | .str s =>
      let t := s.trim
      if t.isEmpty then some 0
      else if t.data.all Char.isDigit then some (t.toNat!)
      else if t.data.head? = some '-' && !(t.drop 1).isEmpty
              && (t.drop 1).data.all Char.isDigit then
        some (-((t.drop 1).toNat! : ℚ))
      else none
  | _ => none

/-- `String(value)` for the values reachable from condition evaluation
(rational formatting beyond integers is unexercised). -/
def jsToString : JsValue → String
  | .undef => "undefined"
  | .num q => if q.den = 1 then toString q.num else toString q
  | .str s => s
  | .boolean true => "true"
  | .boolean false => "false"
  | .arrv _ => ""
  | .objv _ => "[object Object]"

/-- `String.prototype.split` with a single-character separator. -/
def splitOnCharAux (sep : Char) : List Char → List Char → List String
  | [], acc => [String.mk acc.reverse]
  | c :: cs, acc =>
      if c = sep then String.mk acc.reverse :: splitOnCharAux sep cs []
      else splitOnCharAux sep cs (c :: acc)

def splitOnChar (sep : Char) (s : String) : List String :=
  splitOnCharAux sep s.data []

/-- `getNestedValue`: `path.split(".").reduce((acc, key) => acc?.[key])`;
any access on a non-object yields `undefined`. -/
def getNestedValue (obj : JsValue) (path : String) : JsValue :=
  (splitOnChar '.' path).foldl
    (fun acc key =>
      match acc with
      | .objv fields => (kvGet fields key).getD .undef
      | _ => .undef)
    obj

inductive PolicyOp where
  | eq | neq | gt | lt | contains | matches | opIn
  deriving Repr, DecidableEq

structure PolicyCondition where
  field : String
  operator : PolicyOp
  value : JsValue
  deriving Repr

structure PolicyAction where
  type : String
  params : List (String × JsValue)
  deriving Repr

structure PolicyRule where
  id : String
  name : String
  priority : ℤ
  conditions : List PolicyCondition
  action : PolicyAction
  enabled : Bool
  deriving Repr

/-- `PolicyEngine.evaluateCondition`. -/
def evaluateCondition (regexTest : String → String → Bool)
    (cond : PolicyCondition) (ctxObj : JsValue) : Bool :=
  let value := getNestedValue ctxObj cond.field
  match cond.operator with
  | .eq => jsStrictEq value cond.value
  | .neq => !jsStrictEq value cond.value
  | .gt =>
      match jsToNumber value, jsToNumber cond.value with
      | some a, some b => decide (b < a)
      | _, _ => false
  | .lt =>
      match jsToNumber value, jsToNumber cond.value with
      | some a, some b => decide (a < b)
      | _, _ => false
  | .contains => strContains (jsToString value) (jsToString cond.value)
  | .matches => regexTest (jsToString cond.value) (jsToString value)
  | .opIn =>
      match cond.value with
      | .arrv elems => elems.any (fun x => jsStrictEq x value)
      | _ => false

/-- Stable insertion by ascending priority, modelling
`sort((a, b) => a.priority - b.priority)`. -/
def insertByPriority (r : PolicyRule) : List PolicyRule → List PolicyRule
  | [] => [r]
  | x :: xs =>
      if r.priority ≤ x.priority then r :: x :: xs
      else x :: insertByPriority r xs

def sortByPriority (rules : List PolicyRule) : List PolicyRule :=
  rules.foldr insertByPriority []

structure PolicyDecision where
  action : PolicyAction
  matchedRule : Option PolicyRule
  deriving Repr

/-- The `EvaluationContext` slice addressed by the shipped rules. -/
structure PolicyCtxAgent where
  id : String
  reputation : ℚ
  permissions : AgentPermissions

structure PolicyCtxRequest where
  method : String
  path : String
  body : JsValue
  timestamp : ℤ

structure PolicyCtxAnalysis where
  riskScore : ℚ
  isMalicious : Bool
  threatType : String

structure PolicyContext where
  agent : PolicyCtxAgent
  request : PolicyCtxRequest
  analysis : PolicyCtxAnalysis

/-- The `PolicyContext` as the JS object the dotted accessors run on. -/
def contextToObj (ctx : PolicyContext) : JsValue :=
  .objv
    [("agent", .objv
        [("id", .str ctx.agent.id),
         ("reputation", .num ctx.agent.reputation),
         ("permissions", .objv
            [("allowedEndpoints", .arrv (ctx.agent.permissions.allowedEndpoints.map .str)),
             ("deniedEndpoints", .arrv (ctx.agent.permissions.deniedEndpoints.map .str)),
             ("maxRequestsPerMinute", .num ctx.agent.permissions.maxRequestsPerMinute),
             ("maxPayloadSize", .num ctx.agent.permissions.maxPayloadSize),
             ("allowedMethods", .arrv (ctx.agent.permissions.allowedMethods.map .str)),
             ("sensitiveDataAccess", .boolean ctx.agent.permissions.sensitiveDataAccess)])]),
     ("request", .objv
        [("method", .str ctx.request.method),
         ("path", .str ctx.request.path),
         ("body", ctx.request.body),
         ("timestamp", .num ctx.request.timestamp)]),
     ("analysis", .objv
        [("riskScore", .num ctx.analysis.riskScore),
         ("isMalicious", .boolean ctx.analysis.isMalicious),
         ("threatType", .str ctx.analysis.threatType)])]

/-- `PolicyEngine.evaluate`: filter enabled rules, sort by ascending
priority, return the first rule all of whose conditions match, defaulting
to `allow` (the audit-log append has no effect on the decision and is
omitted). -/
def evaluate (regexTest : String → String → Bool) (rules : List PolicyRule)
    (ctx : PolicyContext) : PolicyDecision :=
  let sortedRules := sortByPriority (rules.filter (·.enabled))
  match sortedRules.find?
      (fun r => r.conditions.all (fun c => evaluateCondition regexTest c (contextToObj ctx))) with
  | some rule => { action := rule.action, matchedRule := some rule }
  | none => { action := { type := "allow", params := [] }, matchedRule := none }

/-- `DEFAULT_RULES`, in source order. -/
def DEFAULT_RULES : List PolicyRule :=
  [{ id := "block_high_risk", name := "Block High Risk Requests", priority := 1,
     conditions := [{ field := "analysis.riskScore", operator := .gt, value := .num 90 }],
     action := { type := "deny",
                 params := [("reason", .str "High risk score detected")] },
     enabled := true },
   { id := "rate_limit_untrusted", name := "Rate Limit Untrusted Agents", priority := 10,
     conditions := [{ field := "agent.reputation", operator := .lt, value := .num 30 }],
     action := { type := "rate_limit",
                 params := [("maxRequests", .num 10), ("windowSeconds", .num 60)] },
     enabled := true },
   { id := "protect_admin", name := "Protect Admin Endpoints", priority := 5,
     conditions :=
       [{ field := "request.path", operator := .matches, value := .str "^/api/admin" },
        { field := "agent.permissions.sensitiveDataAccess", operator := .eq,
          value := .boolean false }],
     action := { type := "deny",
                 params := [("reason", .str "Admin access not permitted")] },
     enabled := true },
   { id := "challenge_suspicious", name := "Challenge Suspicious Requests", priority := 20,
     conditions :=
       [{ field := "analysis.riskScore", operator := .gt, value := .num 50 },
        { field := "analysis.riskScore", operator := .lt, value := .num 90 }],
     action := { type := "challenge", params := [] },
     enabled := true }]

/-- The JS regex semantics of the single pattern occurring in
`DEFAULT_RULES`: `new RegExp("^/api/admin").test(s)` holds iff `s` starts
with `/api/admin`. Other patterns are outside the shipped ruleset. -/
def defaultRegexTest (pattern s : String) : Bool :=
  if pattern = "^/api/admin" then "/api/admin".data.isPrefixOf s.data else false

/-! ## Theorems -/

theorem kvGet_updateReputationStore (agents : List (String × AgentIdentity))
    (f : String) (d : ℚ) (a : AgentIdentity) (ha : kvGet agents f = some a) :
    kvGet (updateReputationStore agents f d) f =
      some { a with reputation := clampReputation a.reputation d } := by
  unfold updateReputationStore
  rw [ha]
  exact kvGet_kvSet_same _ _ _

theorem kvGet_foldl_updateReputationStore (f : String) (deltas : List ℚ) :
    ∀ (agents : List (String × AgentIdentity)) (a : AgentIdentity),
      kvGet agents f = some a →
      kvGet (deltas.foldl (fun s d => updateReputationStore s f d) agents) f =
        some { a with reputation := applyReputationDeltas a.reputation deltas } := by
  induction deltas with
  | nil =>
      intro agents a ha
      simpa [applyReputationDeltas] using ha
  | cons d rest ih =>
      intro agents a ha
      have h2 := ih (updateReputationStore agents f d) _
        (kvGet_updateReputationStore agents f d a ha)
      simpa [applyReputationDeltas, List.foldl] using h2

/-- C8: reputation updates always write `max(0, min(100, old + delta))`, so
starting from the registration value 50 the stored reputation stays in
[0, 100]; after `k` successful verifications (+0.1 each) it is at most
`min(100, 50 + 0.1·k)`, and after `k` invalid-signature attempts (−5 each)
it is at least `max(0, 50 − 5·k)`. -/
theorem reputation_bounds (agents : List (String × AgentIdentity)) (f : String)
    (a : AgentIdentity) (deltas : List ℚ) (k : ℕ)
    (ha : kvGet agents f = some a) (h50 : a.reputation = 50) :
    (∃ a', kvGet (deltas.foldl (fun s d => updateReputationStore s f d) agents) f
              = some a' ∧
        a'.reputation = applyReputationDeltas 50 deltas ∧
        0 ≤ a'.reputation ∧ a'.reputation ≤ 100) ∧
    applyReputationDeltas 50 (List.replicate k (1/10)) ≤ min 100 (50 + (1/10 : ℚ) * k) ∧
    max 0 ((50 : ℚ) - 5 * k) ≤ applyReputationDeltas 50 (List.replicate k (-5)) := by
  refine ⟨⟨{ a with reputation := applyReputationDeltas 50 deltas }, ?_, rfl, ?_, ?_⟩, ?_, ?_⟩
  · have := kvGet_foldl_updateReputationStore f deltas agents a ha
    rwa [h50] at this
  · exact applyReputationDeltas_nonneg deltas 50 (by norm_num)
  · exact applyReputationDeltas_le_hundred deltas 50 (by norm_num)
  · exact applyReputationDeltas_replicate_upper k 50 (by norm_num) (by norm_num)
  · exact applyReputationDeltas_replicate_lower k 50 (by norm_num) (by norm_num)

def agentW8 : AgentIdentity :=
  { id := "agent_8", publicKey := "pkW8", fingerprint := "fpW8",
    registeredAt := 0, lastSeen := 0, reputation := 50,
    permissions :=
      { allowedEndpoints := ["*"], deniedEndpoints := [],
        maxRequestsPerMinute := 60, maxPayloadSize := 1048576,
        allowedMethods := ["GET", "POST"], sensitiveDataAccess := false } }

theorem reputation_bounds_witness :
    (∃ a', kvGet (([30, 40, -200] : List ℚ).foldl
              (fun s d => updateReputationStore s "fpW8" d) [("fpW8", agentW8)]) "fpW8"
            = some a' ∧
        a'.reputation = applyReputationDeltas 50 [30, 40, -200] ∧
        0 ≤ a'.reputation ∧ a'.reputation ≤ 100) ∧
    applyReputationDeltas 50 (List.replicate 3 (1/10)) ≤ min 100 (50 + (1/10 : ℚ) * (3 : ℕ)) ∧
    max 0 ((50 : ℚ) - 5 * (3 : ℕ)) ≤ applyReputationDeltas 50 (List.replicate 3 (-5)) :=
  reputation_bounds [("fpW8", agentW8)] "fpW8" agentW8 [30, 40, -200] 3 rfl rfl

theorem composite_trusted_ne_untrusted (m p bh : String) :
    Json.stringify (Json.obj
      [("method", .str m), ("path", .str p), ("bodyHash", .str bh),
       ("reputationBucket", .str "trusted")]) ≠
    Json.stringify (Json.obj
      [("method", .str m), ("path", .str p), ("bodyHash", .str bh),
       ("reputationBucket", .str "untrusted")]) := by
  intro h
  have h' := congrArg String.length h
  simp only [Json.stringify, Json.stringifyObj, String.length_append] at h'
  have e1 : String.length (jsonEscape "trusted") = 7 := by decide
  have e2 : String.length (jsonEscape "untrusted") = 9 := by decide
  rw [e1, e2] at h'
  omega

theorem generateKey_bucket_ne (hashFn : String → String)
    (hinj : Function.Injective hashFn) (request : ApiRequest) :
    generateKey hashFn request "trusted" ≠ generateKey hashFn request "untrusted" := by
  simp only [generateKey]
  intro h
  have h2 : hashFn (Json.stringify (Json.obj
      [("method", .str request.method), ("path", .str (normalizePath request.path)),
       ("bodyHash", .str (hashFn (Json.stringify request.body))),
       ("reputationBucket", .str "trusted")])) =
    hashFn (Json.stringify (Json.obj
      [("method", .str request.method), ("path", .str (normalizePath request.path)),
       ("bodyHash", .str (hashFn (Json.stringify request.body))),
       ("reputationBucket", .str "untrusted")])) := by
    have hd := congrArg String.data h
    simp only [String.data_append] at hd
    exact String.ext (List.append_cancel_left hd)
  exact composite_trusted_ne_untrusted _ _ _ (hinj h2)

/-- C1: the reputation bucket participates in the cache key, so a result
stored while the requesting agent's bucket is `trusted` (reputation ≥ 90)
is invisible to a lookup made while the requesting agent's bucket is
`untrusted` (reputation < 30): the two operations address disjoint keys
(given a collision-free hash). -/
theorem cache_bucket_isolation (hashFn : String → String)
    (hinj : Function.Injective hashFn)
    (store : List (String × AnalysisResult)) (request : ApiRequest)
    (result : AnalysisResult) (repTrusted repUntrusted : ℚ)
    (htr : 90 ≤ repTrusted) (hun : repUntrusted < 30) :
    cacheGet hashFn (cacheSet hashFn store request result repTrusted)
        request repUntrusted =
      cacheGet hashFn store request repUntrusted := by
  have hb1 : getReputationBucket repTrusted = "trusted" := by
    unfold getReputationBucket
    rw [if_pos htr]
  have hb2 : getReputationBucket repUntrusted = "untrusted" := by
    unfold getReputationBucket
    rw [if_neg (by linarith), if_neg (by linarith), if_neg (by linarith),
      if_neg (by linarith)]
  unfold cacheGet cacheSet
  rw [hb1, hb2]
  exact kvGet_kvSet_other _ _ _ _ (generateKey_bucket_ne hashFn hinj request)

def reqC1 : ApiRequest :=
  { method := "GET", path := "/api/users/123", body := .obj [("q", .str "x")] }

def resC1 : AnalysisResult :=
  { isMalicious := false, confidence := 9/10, threatType := some "none",
    explanation := "benign", suggestedAction := .allow, riskScore := 5 }

theorem cache_bucket_isolation_witness :
    cacheGet (fun s => s) (cacheSet (fun s => s) [] reqC1 resC1 95) reqC1 10 =
      cacheGet (fun s => s) [] reqC1 10 :=
  cache_bucket_isolation (fun s => s) (fun _ _ hs => hs) [] reqC1 resC1 95 10
    (by norm_num) (by norm_num)

theorem verifyRequest_inserts_nonce (hashFn : String → String)
    (sigCheck : String → String → String → SigCheck)
    (st : CryptoState) (now : ℤ) (p : SignedRequest) (sig pk : String)
    (hts : ¬ 30000 < |now - p.timestamp|)
    (hnp : noncePresent st.nonces ("nonce:" ++ hashFn pk ++ ":" ++ p.nonce) now = false) :
    (verifyRequest hashFn sigCheck st now p sig pk).2.nonces =
      ("nonce:" ++ hashFn pk ++ ":" ++ p.nonce, now + 60000) :: st.nonces := by
  simp only [verifyRequest]
  rw [if_neg hts, if_neg (by simp [hnp])]
  cases hk : kvGet st.agents (hashFn pk) with
  | none => rfl
  | some a =>
      cases hs : sigCheck p.stringify pk sig <;> simp [hk, hs]

/-- C2: with fresh timestamps, two `verifyRequest` calls with the same
`(publicKey, nonce)` pair within 60 s make the second fail with the replay
error — independently of the signature-verification outcome and of whether
the agent is registered, because the atomic set-if-absent on the nonce key
precedes agent lookup and signature verification. -/
theorem nonce_consumed_replay (hashFn : String → String)
    (sigCheck : String → String → String → SigCheck)
    (st : CryptoState) (t1 t2 : ℤ) (p1 p2 : SignedRequest) (sig1 sig2 pk : String)
    (h1 : |t1 - p1.timestamp| ≤ 30000) (h2 : |t2 - p2.timestamp| ≤ 30000)
    (hn : p2.nonce = p1.nonce)
    (habs : noncePresent st.nonces ("nonce:" ++ hashFn pk ++ ":" ++ p1.nonce) t1 = false)
    (hwin : t2 < t1 + 60000) :
    (verifyRequest hashFn sigCheck
        (verifyRequest hashFn sigCheck st t1 p1 sig1 pk).2 t2 p2 sig2 pk).1 =
      VerifyOutcome.fail "Nonce already used - potential replay attack" := by
  have hst := verifyRequest_inserts_nonce hashFn sigCheck st t1 p1 sig1 pk
    (not_lt.mpr h1) habs
  have hpresent : noncePresent
      (verifyRequest hashFn sigCheck st t1 p1 sig1 pk).2.nonces
      ("nonce:" ++ hashFn pk ++ ":" ++ p2.nonce) t2 = true := by
    rw [hst, hn]
    simp [noncePresent, hwin]
  conv_lhs => rw [verifyRequest]
  rw [if_neg (not_lt.mpr h2), if_pos (by simp [hpresent])]

def stW2 : CryptoState := { nonces := [], agents := [], profiles := [] }

def payloadW2 : SignedRequest :=
  { method := "GET", path := "/api/data", body := .obj [], timestamp := 0,
    nonce := "6f1d2a" }

theorem nonce_consumed_replay_witness :
    (verifyRequest (fun s => s) (fun _ _ _ => SigCheck.ok)
        (verifyRequest (fun s => s) (fun _ _ _ => SigCheck.ok)
          stW2 0 payloadW2 "sig" "pk").2 1000 payloadW2 "sig" "pk").1 =
      VerifyOutcome.fail "Nonce already used - potential replay attack" :=
  nonce_consumed_replay (fun s => s) (fun _ _ _ => SigCheck.ok) stW2 0 1000
    payloadW2 payloadW2 "sig" "sig" "pk" (by decide) (by decide) rfl rfl (by decide)

/-- C9: a `verifyRequest` call that fails with the expired, replay,
unknown-agent or thrown-verification error leaves the identity store
untouched; only an invalid-signature failure modifies it, and then exactly
by rewriting the requesting agent's identity with its reputation clamped
down by 5.  The behavioral-profile keyspace is never written by the call,
and every failure is one of these five errors. -/
theorem verifyRequest_frame (hashFn : String → String)
    (sigCheck : String → String → String → SigCheck)
    (st : CryptoState) (now : ℤ) (p : SignedRequest) (sig pk : String) :
    ((verifyRequest hashFn sigCheck st now p sig pk).2.profiles = st.profiles) ∧
    (((verifyRequest hashFn sigCheck st now p sig pk).1.error =
          some "Request expired or clock skew detected" ∨
      (verifyRequest hashFn sigCheck st now p sig pk).1.error =
          some "Nonce already used - potential replay attack" ∨
      (verifyRequest hashFn sigCheck st now p sig pk).1.error =
          some "Unknown agent - not registered" ∨
      (verifyRequest hashFn sigCheck st now p sig pk).1.error =
          some "Signature verification failed") →
      (verifyRequest hashFn sigCheck st now p sig pk).2.agents = st.agents) ∧
    (∀ a, kvGet st.agents (hashFn pk) = some a →
      (verifyRequest hashFn sigCheck st now p sig pk).1.error = some "Invalid signature" →
      (verifyRequest hashFn sigCheck st now p sig pk).2.agents =
        kvSet st.agents (hashFn pk)
          { a with reputation := clampReputation a.reputation (-5) }) ∧
    ((verifyRequest hashFn sigCheck st now p sig pk).1.valid = false →
      ((verifyRequest hashFn sigCheck st now p sig pk).1.error =
          some "Request expired or clock skew detected" ∨
       (verifyRequest hashFn sigCheck st now p sig pk).1.error =
          some "Nonce already used - potential replay attack" ∨
       (verifyRequest hashFn sigCheck st now p sig pk).1.error =
          some "Unknown agent - not registered" ∨
       (verifyRequest hashFn sigCheck st now p sig pk).1.error =
          some "Signature verification failed" ∨
       (verifyRequest hashFn sigCheck st now p sig pk).1.error =
          some "Invalid signature")) := by
  simp only [verifyRequest]
  split_ifs with hts hnp
  · refine ⟨rfl, fun _ => rfl, fun a _ h => ?_, fun _ => Or.inl rfl⟩
    simp [VerifyOutcome.fail] at h
  · refine ⟨rfl, fun _ => rfl, fun a _ h => ?_, fun _ => Or.inr (Or.inl rfl)⟩
    simp [VerifyOutcome.fail] at h
  · cases hk : kvGet st.agents (hashFn pk) with
    | none =>
        refine ⟨rfl, fun _ => rfl, fun a ha _ => ?_,
          fun _ => Or.inr (Or.inr (Or.inl rfl))⟩
        simp at ha
    | some a =>
        cases hs : sigCheck p.stringify pk sig with
        | ok =>
            refine ⟨rfl, fun h => ?_, fun a' _ h => ?_, fun h => ?_⟩
            · rcases h with h | h | h | h <;> simp [VerifyOutcome.fail] at h
            · simp at h
            · simp at h
        | invalid =>
            refine ⟨rfl, fun h => ?_, fun a' ha' _ => ?_,
              fun _ => Or.inr (Or.inr (Or.inr (Or.inr rfl)))⟩
            · rcases h with h | h | h | h <;> simp [VerifyOutcome.fail] at h
            · have haa : a = a' := by
                injection ha'
              subst haa
              simp [updateReputationStore, hk]
        | threw =>
            refine ⟨rfl, fun _ => rfl, fun a' _ h => ?_,
              fun _ => Or.inr (Or.inr (Or.inr (Or.inl rfl)))⟩
            simp [VerifyOutcome.fail] at h

def agentW9 : AgentIdentity :=
  { id := "agent_9", publicKey := "pkW9", fingerprint := "pkW9",
    registeredAt := 0, lastSeen := 0, reputation := 50,
    permissions :=
      { allowedEndpoints := ["*"], deniedEndpoints := [],
        maxRequestsPerMinute := 60, maxPayloadSize := 1048576,
        allowedMethods := ["GET", "POST"], sensitiveDataAccess := false } }

def stW9 : CryptoState :=
  { nonces := [], agents := [("pkW9", agentW9)], profiles := [] }

def payloadW9 : SignedRequest :=
  { method := "DELETE", path := "/api/admin", body := .obj [], timestamp := 0,
    nonce := "77aa" }

theorem verifyRequest_frame_witness :
    (verifyRequest (fun s => s) (fun _ _ _ => SigCheck.invalid)
        stW9 0 payloadW9 "sig" "pkW9").2.agents =
      kvSet stW9.agents "pkW9"
        { agentW9 with reputation := clampReputation agentW9.reputation (-5) } :=
  (verifyRequest_frame (fun s => s) (fun _ _ _ => SigCheck.invalid)
      stW9 0 payloadW9 "sig" "pkW9").2.2.1 agentW9 rfl rfl

/-- C10: once a `verifyChallenge` call has succeeded, any later call for
the same challenge id within the 60-second retention of the completed
record fails with "Challenge already completed" and leaves the store
unchanged, while `isChallengeCompleted` keeps answering `true`. -/
theorem challenge_single_redemption (hashFn : String → String)
    (st : ChallengeState) (t1 t2 : ℤ) (cid sol sol2 : String)
    (hvalid : (verifyChallenge hashFn st t1 cid sol).1.valid = true)
    (hwin : t2 < t1 + 60 * 1000) :
    ((verifyChallenge hashFn (verifyChallenge hashFn st t1 cid sol).2 t2 cid sol2).1 =
        { valid := false, error := some "Challenge already completed" }) ∧
    ((verifyChallenge hashFn (verifyChallenge hashFn st t1 cid sol).2 t2 cid sol2).2 =
        (verifyChallenge hashFn st t1 cid sol).2) ∧
    (isChallengeCompleted (verifyChallenge hashFn st t1 cid sol).2 t2 cid = true) := by
  rcases hg : getChallenge st t1 cid with _ | ch
  · simp only [verifyChallenge, hg] at hvalid
    simp at hvalid
  · by_cases hc : ch.completed = true
    · simp only [verifyChallenge, hg] at hvalid
      simp [hc] at hvalid
    · by_cases hexp : ch.expiresAt < t1
      · simp only [verifyChallenge, hg] at hvalid
        rw [if_neg hc, if_pos hexp] at hvalid
        simp at hvalid
      · by_cases hsol : (match ch.type with
            | .proof_of_work =>
                verifyProofOfWork hashFn cid sol (ch.difficulty.getD 0)
            | .signature_refresh => verifySignatureRefresh sol (ch.nonce.getD "")
            | .rate_delay => sol == cid) = true
        · have hsucc : (verifyChallenge hashFn st t1 cid sol).2 =
              { st with
                challenges := kvSet st.challenges ("challenge:" ++ cid)
                  ({ ch with completed := true }, t1 + 60 * 1000),
                counts := decrCount st.counts ("challenges:count:" ++ ch.agentId) } := by
            simp only [verifyChallenge, hg]
            rw [if_neg hc, if_neg hexp]
            simp only [hsol, if_true]
          rw [hsucc]
          have hget2 : getChallenge
              { st with
                challenges := kvSet st.challenges ("challenge:" ++ cid)
                  ({ ch with completed := true }, t1 + 60 * 1000),
                counts := decrCount st.counts ("challenges:count:" ++ ch.agentId) }
              t2 cid = some { ch with completed := true } := by
            unfold getChallenge
            simp only [kvGet_kvSet_same]
            rw [if_pos hwin]
          refine ⟨?_, ?_, ?_⟩
          · rw [verifyChallenge, hget2]
            simp
          · rw [verifyChallenge, hget2]
            simp
          · rw [isChallengeCompleted, hget2]
        · simp only [verifyChallenge, hg] at hvalid
          rw [if_neg hc, if_neg hexp] at hvalid
          simp only [hsol, if_false] at hvalid
          simp at hvalid

def challengeW10 : Challenge :=
  { id := "ch_w10", agentId := "agent_10", type := .rate_delay,
    createdAt := 0, expiresAt := 300000, difficulty := none, nonce := none,
    completed := false }

def stW10 : ChallengeState :=
  { challenges := [("challenge:ch_w10", (challengeW10, 300000))], counts := [] }

theorem challenge_single_redemption_witness :
    ((verifyChallenge (fun s => s)
        (verifyChallenge (fun s => s) stW10 0 "ch_w10" "ch_w10").2
        1000 "ch_w10" "ch_w10").1 =
      { valid := false, error := some "Challenge already completed" }) ∧
    ((verifyChallenge (fun s => s)
        (verifyChallenge (fun s => s) stW10 0 "ch_w10" "ch_w10").2
        1000 "ch_w10" "ch_w10").2 =
      (verifyChallenge (fun s => s) stW10 0 "ch_w10" "ch_w10").2) ∧
    (isChallengeCompleted
        (verifyChallenge (fun s => s) stW10 0 "ch_w10" "ch_w10").2 1000 "ch_w10" = true) :=
  challenge_single_redemption (fun s => s) stW10 0 1000 "ch_w10" "ch_w10" "ch_w10"
    (by decide) (by decide)

/-- Modelled from the spec claim, for comparison with the code: the hex
digest starts with (at least) `n` zero hex characters. -/
def leadingZeroHexChars (s : String) (n : ℕ) : Bool :=
  decide (n ≤ s.data.length) && (s.data.take n).all (fun c => c == '0')

def chC4 : Challenge :=
  { id := "ch_c4", agentId := "agent_4", type := .proof_of_work,
    createdAt := 0, expiresAt := 300000, difficulty := some 2, nonce := none,
    completed := false }

def stC4 : ChallengeState :=
  { challenges := [("challenge:ch_c4", (chC4, 300000))], counts := [] }

/-- A stand-in digest with exactly one leading zero hex character. -/
def hashOneZero : String → String :=
  fun _ => String.mk ('0' :: List.replicate 63 'b')

/-- C4 counterexample: a proof-of-work challenge with stored difficulty 2
is accepted although the digest starts with only one zero hex character —
the code requires `ceil(difficulty / 4)` zero hex characters, not
`difficulty` of them. -/
theorem pow_hexchars_counterexample :
    (verifyChallenge hashOneZero stC4 1000 "ch_c4" "sol").1.valid = true ∧
    leadingZeroHexChars (hashOneZero ("ch_c4" ++ "sol")) 2 = false := by
  constructor <;> decide

/-- C4 amended: a proof-of-work challenge issued at risk score `r ≥ 80`
stores difficulty `clamp(⌊r/20⌋, 2, 5)`, and verification accepts a
pending, unexpired proof-of-work challenge iff the digest of
`challengeId ++ solution` starts with `ceil(difficulty / 4)` zero hex
characters (1 for difficulties 2–4, 2 for difficulty 5). -/
theorem pow_difficulty_and_check (hashFn : String → String)
    (cid nonceHex aid sol : String) (r : ℚ) (now t : ℤ)
    (st : ChallengeState) (ch : Challenge) (d : ℤ)
    (hr : 80 ≤ r)
    (hget : getChallenge st t cid = some ch) (hcomp : ch.completed = false)
    (hexp : ¬ ch.expiresAt < t) (htype : ch.type = .proof_of_work)
    (hd : ch.difficulty = some d) :
    ((issueChallenge cid nonceHex aid r now st).1.difficulty =
        some (min 5 (max 2 ⌊r / 20⌋))) ∧
    ((verifyChallenge hashFn st t cid sol).1.valid =
        leadingZeroHexChars (hashFn (cid ++ sol)) ((d + 3) / 4).toNat) := by
  constructor
  · have htype' : selectChallengeType r = .proof_of_work := by
      unfold selectChallengeType
      rw [if_pos hr]
    simp [issueChallenge, htype', calculateDifficulty]
  · have hpow : verifyProofOfWork hashFn cid sol d =
        leadingZeroHexChars (hashFn (cid ++ sol)) ((d + 3) / 4).toNat := by
      simp only [verifyProofOfWork, leadingZeroHexChars]
      congr 1
      rw [List.length_take, decide_eq_decide]
      exact min_eq_left_iff
    simp only [verifyChallenge, hget]
    rw [if_neg (by simp [hcomp]), if_neg hexp]
    simp only [htype, hd, Option.getD_some]
    by_cases hv : verifyProofOfWork hashFn cid sol d = true
    · rw [if_pos hv, ← hpow, hv]
    · rw [if_neg hv, ← hpow]
      rw [Bool.not_eq_true] at hv
      rw [hv]

def hashAllZero : String → String :=
  fun _ => String.mk (List.replicate 64 '0')

def chW4 : Challenge :=
  { id := "ch_w4", agentId := "agent_4", type := .proof_of_work,
    createdAt := 0, expiresAt := 300000, difficulty := some 5, nonce := none,
    completed := false }

def stW4 : ChallengeState :=
  { challenges := [("challenge:ch_w4", (chW4, 300000))], counts := [] }

theorem pow_difficulty_and_check_witness :
    ((issueChallenge "ch_w4" "6fa1" "agent_4" 85 0 stW4).1.difficulty =
        some (min 5 (max 2 ⌊(85 : ℚ) / 20⌋))) ∧
    ((verifyChallenge hashAllZero stW4 1000 "ch_w4" "sol").1.valid =
        leadingZeroHexChars (hashAllZero ("ch_w4" ++ "sol")) (((5 : ℤ) + 3) / 4).toNat) :=
  pow_difficulty_and_check hashAllZero "ch_w4" "6fa1" "agent_4" "sol" 85 0 1000
    stW4 chW4 5 (by norm_num) (by decide) rfl (by decide) rfl rfl

/-- C5 counterexample: a single fired signal of score 0.4 (≤ 0.5, so the
request is not classified anomalous) leaves the risk score unchanged at
50, whereas the claimed unconditional fold would give 58. -/
theorem anomaly_fold_counterexample :
    foldAnomaly 50 (aggregateAnomaly [("Rare path: /admin/export", 2/5)]) = 50 ∧
    min (50 + (aggregateAnomaly [("Rare path: /admin/export", 2/5)]).score * 20) 100
      = 58 := by
  constructor <;> norm_num [foldAnomaly, aggregateAnomaly]

/-- C5 amended: the pipeline folds the anomaly score into the risk score
(`min(riskScore + 20·s, 100)`) only when the request is classified
anomalous, i.e. when the aggregated score exceeds 0.5; for scores ≤ 0.5
the risk score is unchanged. -/
theorem anomaly_fold_conditional (riskScore : ℚ) (anomalies : List (String × ℚ)) :
    ((aggregateAnomaly anomalies).score ≤ 1/2 →
      foldAnomaly riskScore (aggregateAnomaly anomalies) = riskScore) ∧
    (1/2 < (aggregateAnomaly anomalies).score →
      foldAnomaly riskScore (aggregateAnomaly anomalies) =
        min (riskScore + (aggregateAnomaly anomalies).score * 20) 100) := by
  constructor
  · intro hle
    unfold foldAnomaly
    rw [if_neg]
    simp only [aggregateAnomaly] at hle ⊢
    simp only [decide_eq_true_eq]
    exact not_lt.mpr hle
  · intro hgt
    unfold foldAnomaly
    rw [if_pos]
    simp only [aggregateAnomaly] at hgt ⊢
    simp only [decide_eq_true_eq]
    exact hgt

theorem anomaly_fold_conditional_witness :
    foldAnomaly 50 (aggregateAnomaly [("High request rate", 3/5), ("Unusual time", 3/10)])
      = 68 := by
  have h := (anomaly_fold_conditional 50
    [("High request rate", 3/5), ("Unusual time", 3/10)]).2 (by norm_num [aggregateAnomaly])
  rw [h]
  norm_num [aggregateAnomaly]

def reqC6 : ApiRequest :=
  { method := "POST", path := "/api/assistant", body := .obj [] }

/-- C6 counterexample: with no matched pattern and reputation exactly 95,
`analyzeIntent` does NOT take the Tier A skip path: it issues an LLM call
(second component `true`) and — with the LLM unavailable — returns risk 20,
not the Tier A risk 5. -/
theorem tierA_rep95_counterexample :
    (analyzeIntent (fun _ => []) none reqC6 95).2 = true ∧
    (analyzeIntent (fun _ => []) none reqC6 95).1.riskScore = 20 ∧
    ¬ (analyzeIntent (fun _ => []) none reqC6 95).1.riskScore = 5 := by
  refine ⟨by decide, by decide, by decide⟩

/-- C6 amended: the Tier A skip fires iff no threat pattern matched AND
reputation is strictly greater than 95 (so 96 skips, 95 does not, and 95
with a matched pattern does not); when it fires the analyzer returns the
fixed benign result (risk 5, confidence 0.95) without any LLM call. -/
theorem tierA_characterization (preScreenFn : String → List String)
    (llm : Option LlmResponse) (request : ApiRequest) (reputation : ℚ) :
    ((analyzeIntent preScreenFn llm request reputation).2 = false ↔
      (preScreenFn (Json.stringify request.body) = [] ∧ 95 < reputation)) ∧
    ((preScreenFn (Json.stringify request.body) = [] ∧ 95 < reputation) →
      (analyzeIntent preScreenFn llm request reputation).1 =
        { isMalicious := false, confidence := 95/100, threatType := none,
          explanation := "Tier A: Trusted agent, no suspicious patterns detected (Analysis skipped)",
          suggestedAction := .allow, riskScore := 5 }) := by
  by_cases htier : ((preScreenFn (Json.stringify request.body)).isEmpty
      && decide (95 < reputation)) = true
  · have hcond : preScreenFn (Json.stringify request.body) = [] ∧ 95 < reputation := by
      simpa [List.isEmpty_iff] using htier
    refine ⟨⟨fun _ => hcond, fun _ => ?_⟩, fun _ => ?_⟩
    · simp only [analyzeIntent]
      rw [if_pos htier]
    · simp only [analyzeIntent]
      rw [if_pos htier]
  · have hcond : ¬ (preScreenFn (Json.stringify request.body) = [] ∧ 95 < reputation) := by
      simpa [List.isEmpty_iff] using htier
    have hsnd : (analyzeIntent preScreenFn llm request reputation).2 = true := by
      cases llm with
      | none =>
          simp only [analyzeIntent]
          rw [if_neg htier]
      | some r =>
          simp only [analyzeIntent]
          rw [if_neg htier]
          by_cases hvr : llmSchemaValid r = true
          · rw [if_pos hvr]
          · rw [if_neg hvr]
    refine ⟨⟨fun hfalse => ?_, fun hc => absurd hc hcond⟩, fun hc => absurd hc hcond⟩
    rw [hsnd] at hfalse
    exact absurd hfalse (by simp)

theorem tierA_characterization_witness :
    (analyzeIntent (fun _ => []) none reqC6 96).2 = false ∧
    (analyzeIntent (fun _ => []) none reqC6 96).1 =
      { isMalicious := false, confidence := 95/100, threatType := none,
        explanation := "Tier A: Trusted agent, no suspicious patterns detected (Analysis skipped)",
        suggestedAction := .allow, riskScore := 5 } :=
  ⟨(tierA_characterization (fun _ => []) none reqC6 96).1.mpr ⟨rfl, by norm_num⟩,
   (tierA_characterization (fun _ => []) none reqC6 96).2 ⟨rfl, by norm_num⟩⟩

/-- C7: whenever the LLM call throws or its response fails schema
validation (and the Tier A skip did not fire, so the LLM path was
reached), `analyzeIntent` returns exactly the fail-safe ladder, top to
bottom: pattern matched → block with risk 90 and the first matched threat;
else reputation < 60 → block, risk 80; else reputation < 85 → challenge,
risk 50; else allow, risk 20. -/
theorem llm_failsafe_ladder (preScreenFn : String → List String)
    (llm : Option LlmResponse) (request : ApiRequest) (reputation : ℚ)
    (hfail : llm = none ∨ ∃ r, llm = some r ∧ llmSchemaValid r = false)
    (hreach : ¬ (preScreenFn (Json.stringify request.body) = [] ∧ 95 < reputation)) :
    (analyzeIntent preScreenFn llm request reputation).1 =
      (if preScreenFn (Json.stringify request.body) ≠ [] then
        { isMalicious := true, confidence := 8/10,
          threatType := (preScreenFn (Json.stringify request.body)).head?,
          explanation := "LLM analysis unavailable. Blocked due to suspicious RegEx patterns.",
          suggestedAction := .block, riskScore := 90 }
      else if reputation < 60 then
        { isMalicious := true, confidence := 1/2, threatType := none,
          explanation := "LLM analysis unavailable. Blocked untrusted agent (Reputation < 60) during service outage.",
          suggestedAction := .block, riskScore := 80 }
      else if reputation < 85 then
        { isMalicious := false, confidence := 2/5, threatType := none,
          explanation := "LLM analysis unavailable. Issuing challenge to moderately trusted agent.",
          suggestedAction := .challenge, riskScore := 50 }
      else
        { isMalicious := false, confidence := 3/10, threatType := none,
          explanation := "LLM analysis unavailable. Allowing trusted agent (Fail-Open for high reputation).",
          suggestedAction := .allow, riskScore := 20 }) := by
  have hladder : analyzeFailSafe (preScreenFn (Json.stringify request.body)) reputation =
      (if preScreenFn (Json.stringify request.body) ≠ [] then
        { isMalicious := true, confidence := 8/10,
          threatType := (preScreenFn (Json.stringify request.body)).head?,
          explanation := "LLM analysis unavailable. Blocked due to suspicious RegEx patterns.",
          suggestedAction := .block, riskScore := 90 }
      else if reputation < 60 then
        { isMalicious := true, confidence := 1/2, threatType := none,
          explanation := "LLM analysis unavailable. Blocked untrusted agent (Reputation < 60) during service outage.",
          suggestedAction := .block, riskScore := 80 }
      else if reputation < 85 then
        { isMalicious := false, confidence := 2/5, threatType := none,
          explanation := "LLM analysis unavailable. Issuing challenge to moderately trusted agent.",
          suggestedAction := .challenge, riskScore := 50 }
      else
        { isMalicious := false, confidence := 3/10, threatType := none,
          explanation := "LLM analysis unavailable. Allowing trusted agent (Fail-Open for high reputation).",
          suggestedAction := .allow, riskScore := 20 }) := by
    unfold analyzeFailSafe
    by_cases hm : preScreenFn (Json.stringify request.body) = []
    · simp [hm]
    · simp [hm]
  have htier : ¬ (((preScreenFn (Json.stringify request.body)).isEmpty
      && decide (95 < reputation)) = true) := by
    simp only [Bool.and_eq_true, decide_eq_true_eq, List.isEmpty_iff]
    exact hreach
  rcases hfail with hnone | ⟨r, hr, hinvalid⟩
  · subst hnone
    simp only [analyzeIntent]
    rw [if_neg htier]
    exact hladder
  · subst hr
    simp only [analyzeIntent]
    rw [if_neg htier]
    have hvr : ¬ (llmSchemaValid r = true) := by
      simp [hinvalid]
    rw [if_neg hvr]
    exact hladder

def reqC7 : ApiRequest :=
  { method := "GET", path := "/api/users", body := .obj [] }

theorem llm_failsafe_ladder_witness :
    (analyzeIntent (fun _ => []) none reqC7 92).1 =
      { isMalicious := false, confidence := 3/10, threatType := none,
        explanation := "LLM analysis unavailable. Allowing trusted agent (Fail-Open for high reputation).",
        suggestedAction := .allow, riskScore := 20 } := by
  have h := llm_failsafe_ladder (fun _ => []) none reqC7 92 (Or.inl rfl)
    (by
      intro hc
      have := hc.2
      norm_num at this)
  rw [h]
  norm_num

/-- A benign evaluation context exercising only the risk-score rules:
reputation 50 (not untrusted), a non-admin path, no sensitive access. -/
def mkPolicyCtx (riskScore : ℚ) : PolicyContext :=
  { agent :=
      { id := "agent_3", reputation := 50,
        permissions :=
          { allowedEndpoints := ["*"], deniedEndpoints := [],
            maxRequestsPerMinute := 60, maxPayloadSize := 1048576,
            allowedMethods := ["GET", "POST"], sensitiveDataAccess := false } },
    request := { method := "GET", path := "/api/users", body := .objv [],
                 timestamp := 0 },
    analysis := { riskScore := riskScore, isMalicious := false,
                  threatType := "none" } }

/-- C3 counterexample: at `analysis.riskScore` exactly 90 no default rule
matches (`block_high_risk` needs `> 90`, `challenge_suspicious` needs
`< 90`), so `evaluate` returns the default `allow`, not the deny action of
`block_high_risk` that the claim asserts. -/
theorem policy_risk90_counterexample :
    (evaluate defaultRegexTest DEFAULT_RULES (mkPolicyCtx 90)).action.type = "allow" ∧
    (evaluate defaultRegexTest DEFAULT_RULES (mkPolicyCtx 90)).matchedRule.isNone = true := by
  constructor <;> decide

/-- C3 amended: on a context matching no other rule, riskScore 91 triggers
the deny of `block_high_risk` (condition `> 90`), riskScore 90 matches no
rule and yields the default `allow`, and riskScore 89 triggers the
challenge of `challenge_suspicious` (condition `50 < riskScore < 90`). -/
theorem policy_boundary_decisions :
    ((evaluate defaultRegexTest DEFAULT_RULES (mkPolicyCtx 91)).matchedRule.map
        (fun r => r.id) = some "block_high_risk" ∧
     (evaluate defaultRegexTest DEFAULT_RULES (mkPolicyCtx 91)).action.type = "deny") ∧
    ((evaluate defaultRegexTest DEFAULT_RULES (mkPolicyCtx 90)).matchedRule.isNone = true ∧
     (evaluate defaultRegexTest DEFAULT_RULES (mkPolicyCtx 90)).action.type = "allow") ∧
    ((evaluate defaultRegexTest DEFAULT_RULES (mkPolicyCtx 89)).matchedRule.map
        (fun r => r.id) = some "challenge_suspicious" ∧
     (evaluate defaultRegexTest DEFAULT_RULES (mkPolicyCtx 89)).action.type = "challenge") := by
  refine ⟨⟨?_, ?_⟩, ⟨?_, ?_⟩, ⟨?_, ?_⟩⟩ <;> decide

end Gazorpazorp
